import Mathlib

/-!
Verification of the E-shuri learning-platform workflow: progress aggregation,
course-completion trigger, grading (single and bulk), course drop, and
client-side certificate issuance.  The definitions below are a shallow
embedding of the TypeScript source (`CertificateGenerator.tsx`, the grading
queue component, the course-enrollment component) and of the backing table
shapes (`supabase/migrations`, `integrations/supabase/types.ts`).
Timestamps are modelled as naturals, SQL `numeric` as `ℚ`, nullable columns
as `Option`, and each fallible backend round-trip as an explicit boolean
outcome parameter.
-/

namespace EShuri

/-- A row of the `student_courses` table (see `types.ts`): enrollment of a
student in a subject, carrying progress / completion / certificate state. -/
structure EnrollmentRow where
  id : String
  student_id : String
  subject_id : String
  enrolled_at : Nat
  progress : Nat
  completed : Bool
  completed_at : Option Nat
  certificate_url : Option String
deriving Repr, DecidableEq

/-- A row of the `content_progress` table (migration 20251115144543): one row
per (student, content item), tracking completion of that item. -/
structure ContentProgressRecord where
  student_id : String
  content_id : String
  progress_type : String
  completion_percentage : Nat
  time_spent_seconds : Nat
  completed : Bool
  last_position : Option String
deriving Repr, DecidableEq

/-- Number of content-progress records marked `completed`. -/
def completedCount (records : List ContentProgressRecord) : Nat :=
  (records.filter (fun r => r.completed)).length

/-- Modelled from the spec: no function under `src/` computes an enrollment's
aggregated `progress` value (the `student_courses.progress` column has only
readers there, e.g. the student dashboard).  Spec §4.1: output is
`count(completed=true)/count(total) * 100`, rounded, and 0 when there are
zero content items.  JavaScript `Math.round` on a nonnegative value rounds
half up, `round(x) = ⌊x + 1/2⌋`, realised on naturals as
`(2*num + den) / (2*den)`. -/
def computeProgress (records : List ContentProgressRecord) : Nat :=
  if records.length = 0 then 0
  else (2 * (100 * completedCount records) + records.length) / (2 * records.length)

/-- Modelled from the spec: no code under `src/` performs the completion
transition on `student_courses` (the `completed` / `completed_at` columns are
only ever read there).  Spec §4.2: when aggregated progress reaches 100, set
`completed := true` and `completed_at := now` exactly once; calls after
completion are no-ops. -/
def completionTrigger (now : Nat) (e : EnrollmentRow) : EnrollmentRow :=
  if 100 ≤ e.progress ∧ e.completed = false then
    { e with completed := true, completed_at := some now }
  else e

/-- Claim C1: for an enrollment with `N` content items of which `K` are
completed, progress aggregation returns `round(K/N*100)` (the mathematical
half-up rounding of the rational `K/N*100`) when `N > 0`, and `0` when
`N = 0`. -/
theorem computeProgress_round (records : List ContentProgressRecord) :
    (records.length = 0 → computeProgress records = 0) ∧
    (records.length ≠ 0 →
      (computeProgress records : ℤ) =
        round ((completedCount records : ℚ) / records.length * 100)) := by
  constructor
  · intro h
    simp [computeProgress, h]
  · intro h
    have hN : (records.length : ℚ) ≠ 0 := by
      exact_mod_cast h
    rw [round_eq]
    have hx : (completedCount records : ℚ) / records.length * 100 + 1 / 2 =
        ((2 * (100 * completedCount records) + records.length : ℕ) : ℚ) /
          ((2 * records.length : ℕ) : ℚ) := by
      push_cast
      field_simp
      ring
    rw [hx, ← Int.natCast_floor_eq_floor (by positivity), Nat.floor_div_eq_div]
    simp [computeProgress, h]

/-- Claim C1 witness: the spec §8 scenario — 4 content items, 3 completed —
gives progress 75 = round(3/4*100). -/
theorem computeProgress_round_witness :
    ([⟨"st", "c1", "video", 100, 0, true, none⟩,
      ⟨"st", "c2", "video", 100, 0, true, none⟩,
      ⟨"st", "c3", "article", 100, 0, true, none⟩,
      ⟨"st", "c4", "exercise", 10, 0, false, none⟩] :
        List ContentProgressRecord).length ≠ 0 ∧
    (computeProgress
      [⟨"st", "c1", "video", 100, 0, true, none⟩,
       ⟨"st", "c2", "video", 100, 0, true, none⟩,
       ⟨"st", "c3", "article", 100, 0, true, none⟩,
       ⟨"st", "c4", "exercise", 10, 0, false, none⟩] : ℤ) =
      round ((completedCount
        [⟨"st", "c1", "video", 100, 0, true, none⟩,
         ⟨"st", "c2", "video", 100, 0, true, none⟩,
         ⟨"st", "c3", "article", 100, 0, true, none⟩,
         ⟨"st", "c4", "exercise", 10, 0, false, none⟩] : ℚ) / 4 * 100) :=
  ⟨by decide,
   (computeProgress_round _).2 (by decide)⟩

/-- Claim C2: once an enrollment's progress is 100 and it is not yet
completed, one run of the completion trigger sets `completed := true` and
stamps `completed_at`; a second run on the result (at any later time) is a
no-op, leaving `completed_at` unchanged. -/
theorem completionTrigger_once (e : EnrollmentRow) (t1 t2 : Nat)
    (hp : e.progress = 100) (hc : e.completed = false) :
    (completionTrigger t1 e).completed = true ∧
    (completionTrigger t1 e).completed_at = some t1 ∧
    completionTrigger t2 (completionTrigger t1 e) = completionTrigger t1 e := by
  simp [completionTrigger, hp, hc]

/-- Claim C2 witness: a concrete enrollment at progress 100, triggered at
time 5 and re-triggered at time 9. -/
theorem completionTrigger_once_witness :
    (completionTrigger 5 ⟨"e1", "stu1", "sub1", 0, 100, false, none, none⟩).completed = true ∧
    (completionTrigger 5 ⟨"e1", "stu1", "sub1", 0, 100, false, none, none⟩).completed_at = some 5 ∧
    completionTrigger 9 (completionTrigger 5 ⟨"e1", "stu1", "sub1", 0, 100, false, none, none⟩) =
      completionTrigger 5 ⟨"e1", "stu1", "sub1", 0, 100, false, none, none⟩ :=
  completionTrigger_once ⟨"e1", "stu1", "sub1", 0, 100, false, none, none⟩ 5 9 rfl rfl

/-- A row of the `assignment_submissions` table (migration 20251115144543):
`grade` is SQL `numeric` (modelled as `ℚ`), `status` ranges over
draft / submitted / graded. -/
structure SubmissionRow where
  id : String
  assignment_id : String
  student_id : String
  submission_text : Option String
  submitted_at : Option Nat
  grade : Option ℚ
  feedback : Option String
  graded_at : Option Nat
  graded_by : Option String
  status : String
  is_late : Bool
deriving Repr, DecidableEq

/-- A row of the `notifications` table: `user_id` is `NOT NULL` in the
schema. -/
structure NotificationRow where
  user_id : String
  type : String
  title : String
  message : String
  link : Option String
  read : Bool
deriving Repr, DecidableEq

/-- The client-side shape produced by `fetchSubmissions` in the grading
queue: exactly the columns of its select list (`id, submission_text,
submitted_at, is_late, status, grade, feedback`, the joined student
`full_name` and the joined assignment `title, points, rubric`).  Note that
`student_id` and `assignment_id` are NOT selected, so they are absent from
the fetched record. -/
structure Submission where
  id : String
  submission_text : String
  submitted_at : String
  is_late : Bool
  status : String
  grade : Option ℚ
  feedback : Option String
  student_full_name : String
  assignment_title : String
  assignment_points : ℚ
  assignment_rubric : Option String
deriving Repr, DecidableEq

/-- Backend state touched by the grading workflow. -/
structure GradingDB where
  submissions : List SubmissionRow
  notifications : List NotificationRow
deriving Repr, DecidableEq

/-- The grade text box as the handlers see it: empty string (falsy), a
string whose `parseFloat` is `NaN`, or a parsed number. -/
inductive GradeInput
  | empty
  | nan
  | num (g : ℚ)
deriving Repr, DecidableEq

/-- Caller-visible outcome of `submitGrade` (which toast fires / early
return is taken). -/
inductive GradeOutcome
  | missingGrade
  | invalidGrade
  | updateFailed
  | success
deriving Repr, DecidableEq

/-- The `update({grade, feedback, status: "graded", graded_at, graded_by})
.eq("id", id)` mutation: rewrites every submission row whose `id`
matches. -/
def applyGradeUpdate (rows : List SubmissionRow) (id : String) (g : ℚ)
    (fb : String) (now : Nat) (grader : Option String) : List SubmissionRow :=
  rows.map fun r =>
    if r.id = id then
      { r with grade := some g, feedback := some fb, status := "graded",
               graded_at := some now, graded_by := grader }
    else r

/-- Insert into `notifications`.  The schema declares `user_id NOT NULL`,
so an insert whose `user_id` is absent (`undefined` in the source, `none`
here) is rejected by the backend and adds no row; the grading handlers do
not check this insert's error. -/
def insertNotification (db : GradingDB) (userId : Option String)
    (ty title message : String) (link : Option String) : GradingDB :=
  match userId with
  | none => db
  | some uid =>
      { db with notifications :=
          db.notifications ++ [⟨uid, ty, title, message, link, false⟩] }

/-- The notification body built by the grading handlers. -/
def gradedMessage (title : String) (g pts : ℚ) : String :=
  "Your assignment \"" ++ title ++ "\" has been graded. Score: " ++
    toString g ++ "/" ++ toString pts

/-- `submitGrade` from the grading queue.  Guards: no selected submission or
empty grade text → "Please enter a grade"; `NaN`, negative, or above the
assignment's `points` → validation error, no mutation.  Otherwise the row
update runs; on its failure the handler returns with no notification.  On
success it inserts a notification whose `user_id` is
`(selectedSubmission as any).student_id` — a column that is not in the
`fetchSubmissions` select list, hence `undefined`, modelled as `none`
(similarly `link` interpolates the absent `assignment_id` as the string
"undefined"). -/
def submitGrade (db : GradingDB) (selected : Option Submission)
    (grade : GradeInput) (feedback : String) (now : Nat)
    (sessionUserId : Option String) (updateOk : Bool) :
    GradingDB × GradeOutcome :=
  match selected with
  | none => (db, .missingGrade)
  | some s =>
    match grade with
    | .empty => (db, .missingGrade)
    | .nan => (db, .invalidGrade)
    | .num g =>
      if g < 0 ∨ s.assignment_points < g then (db, .invalidGrade)
      else if updateOk = false then (db, .updateFailed)
      else
        let db1 : GradingDB :=
          { db with submissions :=
              applyGradeUpdate db.submissions s.id g feedback now sessionUserId }
        (insertNotification db1 none "assignment_graded" "Assignment Graded"
          (gradedMessage s.assignment_title g s.assignment_points)
          (some "/assignments/undefined"), .success)

/-- `handleBulkGrade` from the grading queue: for each selected id, look the
submission up in the fetched list, validate the shared grade against that
item's own `points`, skip invalid items (`continue`), update valid ones
(this update's error is not checked in the source) and attempt the same
doomed notification insert (`user_id` again the unselected `student_id`). -/
def handleBulkGrade (db : GradingDB) (selectedIds : List String)
    (subs : List Submission) (bulkGrade : GradeInput) (bulkFeedback : String)
    (now : Nat) (sessionUserId : Option String) : GradingDB :=
  if selectedIds = [] then db
  else if bulkGrade = .empty then db
  else
    selectedIds.foldl
      (fun acc sid =>
        match subs.find? (fun s => s.id = sid) with
        | none => acc
        | some s =>
          match bulkGrade with
          | .num g =>
            if g < 0 ∨ s.assignment_points < g then acc
            else
              let acc1 : GradingDB :=
                { acc with submissions :=
                    applyGradeUpdate acc.submissions s.id g bulkFeedback now sessionUserId }
              insertNotification acc1 none "assignment_graded" "Assignment Graded"
                (gradedMessage s.assignment_title g s.assignment_points)
                (some "/assignments/undefined")
          | _ => acc)
      db

/-- Every row of the graded-update result whose id matches carries the new
grade, status and feedback. -/
theorem mem_applyGradeUpdate (rows : List SubmissionRow) (id : String) (g : ℚ)
    (fb : String) (now : Nat) (grader : Option String) :
    ∀ r ∈ applyGradeUpdate rows id g fb now grader, r.id = id →
      r.grade = some g ∧ r.status = "graded" ∧ r.feedback = some fb := by
  intro r hr hid
  rw [applyGradeUpdate, List.mem_map] at hr
  obtain ⟨r0, _, rfl⟩ := hr
  by_cases h : r0.id = id
  · simp [h]
  · rw [if_neg h] at hid
    exact absurd hid h

/-- Claim C3: a grade below 0 or above the assignment's points is rejected
with a validation error and the database is untouched, while the boundary
grades 0 and `points` pass validation and are written to the row. -/
theorem submitGrade_validation (db : GradingDB) (s : Submission)
    (feedback : String) (now : Nat) (grader : Option String) (g : ℚ)
    (hpts : 0 ≤ s.assignment_points) :
    ((g < 0 ∨ s.assignment_points < g) → ∀ updateOk,
      submitGrade db (some s) (.num g) feedback now grader updateOk =
        (db, .invalidGrade)) ∧
    ((g = 0 ∨ g = s.assignment_points) →
      (submitGrade db (some s) (.num g) feedback now grader true).2 =
        .success ∧
      ∀ r ∈ (submitGrade db (some s) (.num g) feedback now grader true).1.submissions,
        r.id = s.id →
          r.grade = some g ∧ r.status = "graded" ∧ r.feedback = some feedback) := by
  constructor
  · intro hbad updateOk
    simp [submitGrade, hbad]
  · intro hg
    have hok : ¬(g < 0 ∨ s.assignment_points < g) := by
      rcases hg with rfl | rfl
      · push_neg
        exact ⟨le_refl 0, hpts⟩
      · push_neg
        exact ⟨hpts, le_refl _⟩
    refine ⟨by simp [submitGrade, hok], ?_⟩
    intro r hr hid
    have hsub : (submitGrade db (some s) (.num g) feedback now grader true).1.submissions =
        applyGradeUpdate db.submissions s.id g feedback now grader := by
      simp [submitGrade, hok, insertNotification]
    rw [hsub] at hr
    exact mem_applyGradeUpdate db.submissions s.id g feedback now grader r hr hid

/-- Claim C3 witness: a concrete submission worth 100 points; grade 0 passes
validation and is written. -/
theorem submitGrade_validation_witness :
    (0 : ℚ) ≤ (100 : ℚ) ∧
    (((0 : ℚ) < 0 ∨ (100 : ℚ) < 0) → ∀ updateOk,
      submitGrade ⟨[⟨"s1", "a1", "stu1", some "my essay", some 10, none, none,
          none, none, "submitted", false⟩], []⟩
        (some ⟨"s1", "my essay", "2025-01-01", false, "submitted", none, none,
          "Alice", "Essay 1", 100, none⟩)
        (.num 0) "good" 99 (some "tch1") updateOk =
        (⟨[⟨"s1", "a1", "stu1", some "my essay", some 10, none, none,
          none, none, "submitted", false⟩], []⟩, .invalidGrade)) ∧
    (((0 : ℚ) = 0 ∨ (0 : ℚ) = 100) →
      (submitGrade ⟨[⟨"s1", "a1", "stu1", some "my essay", some 10, none, none,
          none, none, "submitted", false⟩], []⟩
        (some ⟨"s1", "my essay", "2025-01-01", false, "submitted", none, none,
          "Alice", "Essay 1", 100, none⟩)
        (.num 0) "good" 99 (some "tch1") true).2 = .success ∧
      ∀ r ∈ (submitGrade ⟨[⟨"s1", "a1", "stu1", some "my essay", some 10, none,
          none, none, none, "submitted", false⟩], []⟩
        (some ⟨"s1", "my essay", "2025-01-01", false, "submitted", none, none,
          "Alice", "Essay 1", 100, none⟩)
        (.num 0) "good" 99 (some "tch1") true).1.submissions,
        r.id = "s1" →
          r.grade = some 0 ∧ r.status = "graded" ∧ r.feedback = some "good") := by
  refine ⟨by norm_num, ?_⟩
  exact submitGrade_validation
    ⟨[⟨"s1", "a1", "stu1", some "my essay", some 10, none, none,
        none, none, "submitted", false⟩], []⟩
    ⟨"s1", "my essay", "2025-01-01", false, "submitted", none, none,
      "Alice", "Essay 1", 100, none⟩
    "good" 99 (some "tch1") 0 (by norm_num)

/-- Claim C4 (bug evaluation): grading submission "s1" (student "stu1",
assignment worth 100 points) with grade 50 succeeds and writes grade,
feedback, status "graded", `graded_at` and `graded_by` to the row — but
inserts NO notification row.  The source passes
`(selectedSubmission as any).student_id` as the notification's `user_id`,
yet `student_id` is not in the `fetchSubmissions` select list, so the value
is `undefined` and the `NOT NULL` insert fails (its error unchecked): the
notifications table stays empty instead of gaining one row for the
student. -/
theorem submitGrade_notification_bug :
    submitGrade
      ⟨[⟨"s1", "a1", "stu1", some "essay", some 10, none, none, none,
          none, "submitted", false⟩], []⟩
      (some ⟨"s1", "essay", "2025-01-01", false, "submitted", none, none,
        "Alice", "Essay 1", 100, none⟩)
      (.num 50) "well done" 999 (some "tch1") true =
    (⟨[⟨"s1", "a1", "stu1", some "essay", some 10, some 50, some "well done",
        some 999, some "tch1", "graded", false⟩], []⟩, .success) := by
  decide

/-- Claim C5 (bug evaluation): a bulk batch of M = 2 selected submissions
sharing grade 50, where "s2"'s own assignment ceiling (30 points) is
violated: the valid item "s1" is graded, the invalid "s2" row is left
unmutated (skipped, not fatal to the batch) — but 0 notifications are
inserted, not M-1 = 1, because each notification's `user_id` is again the
unselected (undefined) `student_id` and the `NOT NULL` insert fails. -/
theorem handleBulkGrade_mixed_batch_bug :
    handleBulkGrade
      ⟨[⟨"s1", "a1", "stu1", some "t1", some 10, none, none, none,
          none, "submitted", false⟩,
        ⟨"s2", "a2", "stu2", some "t2", some 11, none, none, none,
          none, "submitted", false⟩], []⟩
      ["s1", "s2"]
      [⟨"s1", "t1", "2025-01-01", false, "submitted", none, none,
          "Alice", "Essay 1", 100, none⟩,
       ⟨"s2", "t2", "2025-01-02", false, "submitted", none, none,
          "Bob", "Quiz 1", 30, none⟩]
      (.num 50) "same feedback" 999 (some "tch1") =
    ⟨[⟨"s1", "a1", "stu1", some "t1", some 10, some 50, some "same feedback",
        some 999, some "tch1", "graded", false⟩,
      ⟨"s2", "a2", "stu2", some "t2", some 11, none, none, none,
        none, "submitted", false⟩], []⟩ := by
  decide

/-- Big-endian decimal digits of a natural number. -/
def decDigits (n : Nat) : List Nat :=
  if _h : n < 10 then [n]
  else decDigits (n / 10) ++ [n % 10]
decreasing_by
  exact Nat.div_lt_self (by omega) (by omega)

/-- Value of a big-endian digit list. -/
def decVal (ds : List Nat) : Nat :=
  ds.foldl (fun a d => 10 * a + d) 0

/-- ASCII digit for a decimal digit. -/
def digitChar (d : Nat) : Char :=
  Char.ofNat (48 + d)

/-- Decimal rendering of a natural number, the model of the JavaScript
template interpolation of `Date.now()` into the certificate filename. -/
def decString (n : Nat) : String :=
  ⟨(decDigits n).map digitChar⟩

theorem decVal_append (ds : List Nat) (d : Nat) :
    decVal (ds ++ [d]) = 10 * decVal ds + d := by
  simp [decVal, List.foldl_append]

theorem decVal_decDigits (n : Nat) : decVal (decDigits n) = n := by
  induction n using Nat.strong_induction_on with
  | _ n ih =>
    rw [decDigits]
    by_cases h : n < 10
    · simp [h, decVal]
    · rw [dif_neg h, decVal_append,
        ih (n / 10) (Nat.div_lt_self (by omega) (by omega))]
      omega

theorem decDigits_injective {m n : Nat} (h : decDigits m = decDigits n) :
    m = n := by
  have hm := decVal_decDigits m
  rw [h, decVal_decDigits] at hm
  omega

theorem decDigits_lt_ten (n : Nat) : ∀ d ∈ decDigits n, d < 10 := by
  induction n using Nat.strong_induction_on with
  | _ n ih =>
    rw [decDigits]
    by_cases h : n < 10
    · simp [h]
    · rw [dif_neg h]
      intro d hd
      rcases List.mem_append.mp hd with h1 | h2
      · exact ih (n / 10) (Nat.div_lt_self (by omega) (by omega)) d h1
      · simp only [List.mem_singleton] at h2
        omega

theorem digitChar_inj_lt :
    ∀ d1 < 10, ∀ d2 < 10, digitChar d1 = digitChar d2 → d1 = d2 := by
  decide

theorem map_digitChar_inj (l1 : List Nat) :
    ∀ l2 : List Nat, (∀ d ∈ l1, d < 10) → (∀ d ∈ l2, d < 10) →
      l1.map digitChar = l2.map digitChar → l1 = l2 := by
  induction l1 with
  | nil =>
    intro l2 _ _ h
    cases l2 <;> simp_all
  | cons a t ih =>
    intro l2 h1 h2 h
    cases l2 with
    | nil => simp at h
    | cons b t2 =>
      simp only [List.map_cons, List.cons.injEq] at h
      have ha := digitChar_inj_lt a (h1 a (by simp)) b (h2 b (by simp)) h.1
      subst ha
      have ht := ih t2 (fun d hd => h1 d (by simp [hd]))
        (fun d hd => h2 d (by simp [hd])) h.2
      rw [ht]

theorem decString_data_injective {m n : Nat}
    (h : (decString m).data = (decString n).data) : m = n := by
  apply decDigits_injective
  exact map_digitChar_inj (decDigits m) (decDigits n)
    (decDigits_lt_ten m) (decDigits_lt_ten n) h

/-- `courseName.replace(/\s+/g, "-")` on the character list: every maximal
run of whitespace becomes a single dash (`prevWs` records whether the
previous character belonged to a whitespace run). -/
def squashWs : Bool → List Char → List Char
  | _, [] => []
  | prevWs, c :: rest =>
    if c.isWhitespace then
      (if prevWs then [] else ['-']) ++ squashWs true rest
    else
      c :: squashWs false rest

/-- `courseName.replace(/\s+/g, "-")`. -/
def squashWhitespace (s : String) : String :=
  ⟨squashWs false s.data⟩

/-- The certificate filename built by `generateCertificate`:
`certificate-${courseName.replace(/\s+/g, "-")}-${Date.now()}.pdf`. -/
def certFileName (courseName : String) (now : Nat) : String :=
  "certificate-" ++ squashWhitespace courseName ++ "-" ++ decString now ++ ".pdf"

/-- The object-storage path `certificates/${studentId}/${fileName}`. -/
def certPath (studentId : String) (fileName : String) : String :=
  "certificates/" ++ studentId ++ "/" ++ fileName

/-- `getPublicUrl` on the `content-files` bucket: a stable dereferenceable
URL determined by the object path. -/
def publicUrl (path : String) : String :=
  "https://storage.example/content-files/" ++ path

/-- Two runs at different timestamps produce different object paths (the
filename is timestamp-qualified). -/
theorem certPath_injective (sid course : String) {t1 t2 : Nat}
    (h : certPath sid (certFileName course t1) =
      certPath sid (certFileName course t2)) : t1 = t2 := by
  apply decString_data_injective
  have hd := congrArg String.data h
  simp only [certPath, certFileName, String.data_append, List.append_assoc] at hd
  have h1 := List.append_cancel_left hd
  have h2 := List.append_cancel_left h1
  have h3 := List.append_cancel_left h2
  have h4 := List.append_cancel_left h3
  have h5 := List.append_cancel_left h4
  have h6 := List.append_cancel_left h5
  exact List.append_cancel_right h6

/-- The `CertificateData` argument of `generateCertificate`. -/
structure CertData where
  studentName : String
  courseName : String
  completionDate : String
  courseId : String
  studentId : String
deriving Repr, DecidableEq

/-- The backend state `generateCertificate` interacts with: the object
paths present in the `content-files` bucket, the `student_courses` rows,
plus the filenames handed to the browser download (`pdf.save`) and the
toast messages shown. -/
structure CertState where
  storage : List String
  enrollments : List EnrollmentRow
  localSaves : List String
  toasts : List String
deriving Repr, DecidableEq

/-- The `update({certificate_url}).eq("student_id", ...).eq("subject_id",
...)` mutation on `student_courses`. -/
def setCertificateUrl (rows : List EnrollmentRow) (sid cid url : String) :
    List EnrollmentRow :=
  rows.map fun r =>
    if r.student_id = sid ∧ r.subject_id = cid then
      { r with certificate_url := some url }
    else r

/-- `generateCertificate` from `CertificateGenerator.tsx` after the fixed
PDF rendering: upload the blob under
`certificates/${studentId}/${fileName}` with `upsert:false` (the upload
errors if the backend refuses, `uploadOk = false`, or the object already
exists), then fetch the public URL, write it into `student_courses`, and
save the file locally; any thrown error is caught, an error toast is shown,
the file is still saved locally, and `null` is returned. -/
def generateCertificate (st : CertState) (d : CertData) (now : Nat)
    (uploadOk updateOk : Bool) : CertState × Option String :=
  let fileName := certFileName d.courseName now
  let path := certPath d.studentId fileName
  if uploadOk = true ∧ path ∉ st.storage then
    let st1 : CertState := { st with storage := st.storage ++ [path] }
    let url := publicUrl path
    if updateOk = true then
      ({ st1 with
          enrollments := setCertificateUrl st1.enrollments d.studentId d.courseId url,
          localSaves := st1.localSaves ++ [fileName],
          toasts := st1.toasts ++ ["Certificate generated and saved successfully!"] },
        some url)
    else
      ({ st1 with
          localSaves := st1.localSaves ++ [fileName],
          toasts := st1.toasts ++ ["Failed to save certificate"] },
        none)
  else
    ({ st with
        localSaves := st.localSaves ++ [fileName],
        toasts := st.toasts ++ ["Failed to save certificate"] },
      none)

/-- Claim C6: when the storage upload fails (backend refusal, or an object
already at the path under `upsert:false`), certificate generation returns
`none` with an error toast (a recoverable error to the caller), performs no
database update — the enrollments, in particular every `certificate_url`,
are unchanged, as is storage — and still saves the rendered document
locally as a fallback. -/
theorem generateCertificate_upload_failure (st : CertState) (d : CertData)
    (now : Nat) (uploadOk updateOk : Bool)
    (h : uploadOk = false ∨
      certPath d.studentId (certFileName d.courseName now) ∈ st.storage) :
    generateCertificate st d now uploadOk updateOk =
      ({ st with
          localSaves := st.localSaves ++ [certFileName d.courseName now],
          toasts := st.toasts ++ ["Failed to save certificate"] },
        none) := by
  have hcond : ¬(uploadOk = true ∧
      certPath d.studentId (certFileName d.courseName now) ∉ st.storage) := by
    rcases h with h | h
    · intro hc
      rw [h] at hc
      exact absurd hc.1 (by simp)
    · intro hc
      exact hc.2 h
  simp only [generateCertificate, hcond, if_false, if_neg]

/-- Claim C6 witness: an upload refused by the backend on a concrete state
leaves the enrollment row untouched and returns `none` while the local
download still happens. -/
theorem generateCertificate_upload_failure_witness :
    ((false = false ∨
      certPath "stu1" (certFileName "Math S4" 777) ∈
        ([] : List String)) ∧
    generateCertificate
        ⟨[], [⟨"e1", "stu1", "sub1", 0, 100, true, some 50, none⟩], [], []⟩
        ⟨"Alice Smith", "Math S4", "2025-06-01", "sub1", "stu1"⟩ 777
        false true =
      (⟨[], [⟨"e1", "stu1", "sub1", 0, 100, true, some 50, none⟩],
          [certFileName "Math S4" 777], ["Failed to save certificate"]⟩,
        none)) :=
  ⟨Or.inl rfl,
   generateCertificate_upload_failure
     ⟨[], [⟨"e1", "stu1", "sub1", 0, 100, true, some 50, none⟩], [], []⟩
     ⟨"Alice Smith", "Math S4", "2025-06-01", "sub1", "stu1"⟩ 777
     false true (Or.inl rfl)⟩

/-- Every row of the certificate-url update result that matches the
(student, subject) pair carries the new URL. -/
theorem mem_setCertificateUrl (rows : List EnrollmentRow) (sid cid url : String) :
    ∀ r ∈ setCertificateUrl rows sid cid url,
      r.student_id = sid → r.subject_id = cid → r.certificate_url = some url := by
  intro r hr hs hc
  rw [setCertificateUrl, List.mem_map] at hr
  obtain ⟨r0, _, rfl⟩ := hr
  by_cases h : r0.student_id = sid ∧ r0.subject_id = cid
  · simp [h]
  · rw [if_neg h] at hs hc
    exact absurd ⟨hs, hc⟩ h

/-- Distinct object paths give distinct public URLs. -/
theorem publicUrl_injective {p q : String} (h : publicUrl p = publicUrl q) :
    p = q := by
  have hd := congrArg String.data h
  simp only [publicUrl, String.data_append] at hd
  exact String.ext (List.append_cancel_left hd)

/-- Claim C7: running certificate generation twice for the same
(student, course) pair at distinct timestamps — both uploads and both
database updates succeeding and neither path previously present — produces
two distinct storage object paths, both present afterwards (no overwrite),
returns a second URL different from the first, and leaves every matching
enrollment row's `certificate_url` at the second run's URL
(last-write-wins): the operation is not idempotent. -/
theorem generateCertificate_twice (st : CertState) (d : CertData)
    (t1 t2 : Nat) (hne : t1 ≠ t2)
    (h1 : certPath d.studentId (certFileName d.courseName t1) ∉ st.storage)
    (h2 : certPath d.studentId (certFileName d.courseName t2) ∉ st.storage) :
    certPath d.studentId (certFileName d.courseName t1) ≠
      certPath d.studentId (certFileName d.courseName t2) ∧
    (generateCertificate (generateCertificate st d t1 true true).1
        d t2 true true).1.storage =
      st.storage ++ [certPath d.studentId (certFileName d.courseName t1),
        certPath d.studentId (certFileName d.courseName t2)] ∧
    (generateCertificate (generateCertificate st d t1 true true).1
        d t2 true true).2 =
      some (publicUrl (certPath d.studentId (certFileName d.courseName t2))) ∧
    publicUrl (certPath d.studentId (certFileName d.courseName t1)) ≠
      publicUrl (certPath d.studentId (certFileName d.courseName t2)) ∧
    (∀ r ∈ (generateCertificate (generateCertificate st d t1 true true).1
        d t2 true true).1.enrollments,
      r.student_id = d.studentId → r.subject_id = d.courseId →
        r.certificate_url =
          some (publicUrl (certPath d.studentId (certFileName d.courseName t2)))) := by
  have hp : certPath d.studentId (certFileName d.courseName t1) ≠
      certPath d.studentId (certFileName d.courseName t2) :=
    fun h => hne (certPath_injective d.studentId d.courseName h)
  have hrun1 : generateCertificate st d t1 true true =
      ({ st with
          storage := st.storage ++ [certPath d.studentId (certFileName d.courseName t1)],
          enrollments := setCertificateUrl st.enrollments d.studentId d.courseId
            (publicUrl (certPath d.studentId (certFileName d.courseName t1))),
          localSaves := st.localSaves ++ [certFileName d.courseName t1],
          toasts := st.toasts ++ ["Certificate generated and saved successfully!"] },
        some (publicUrl (certPath d.studentId (certFileName d.courseName t1)))) := by
    simp only [generateCertificate]
    rw [if_pos ⟨trivial, h1⟩, if_pos trivial]
  have h2' : certPath d.studentId (certFileName d.courseName t2) ∉
      st.storage ++ [certPath d.studentId (certFileName d.courseName t1)] := by
    intro hmem
    rcases List.mem_append.mp hmem with hmem | hmem
    · exact h2 hmem
    · simp only [List.mem_singleton] at hmem
      exact hp hmem.symm
  have hrun2 : generateCertificate (generateCertificate st d t1 true true).1
      d t2 true true =
      ({ st with
          storage := (st.storage ++ [certPath d.studentId (certFileName d.courseName t1)])
            ++ [certPath d.studentId (certFileName d.courseName t2)],
          enrollments := setCertificateUrl
            (setCertificateUrl st.enrollments d.studentId d.courseId
              (publicUrl (certPath d.studentId (certFileName d.courseName t1))))
            d.studentId d.courseId
            (publicUrl (certPath d.studentId (certFileName d.courseName t2))),
          localSaves := (st.localSaves ++ [certFileName d.courseName t1])
            ++ [certFileName d.courseName t2],
          toasts := (st.toasts ++ ["Certificate generated and saved successfully!"])
            ++ ["Certificate generated and saved successfully!"] },
        some (publicUrl (certPath d.studentId (certFileName d.courseName t2)))) := by
    rw [hrun1]
    simp only [generateCertificate]
    rw [if_pos ⟨trivial, h2'⟩, if_pos trivial]
  refine ⟨hp, ?_, ?_, ?_, ?_⟩
  · rw [hrun2]
    simp [List.append_assoc]
  · rw [hrun2]
  · intro h
    exact hp (publicUrl_injective h)
  · intro r hr
    rw [hrun2] at hr
    exact mem_setCertificateUrl _ d.studentId d.courseId _ r hr

/-- A concrete backend state and certificate payload for the certificate
witnesses: one completed enrollment of student "stu1" in subject "sub1",
empty storage. -/
def sampleCertState : CertState :=
  ⟨[], [⟨"e1", "stu1", "sub1", 0, 100, true, some 50, none⟩], [], []⟩

/-- Concrete `generateCertificate` input for the certificate witnesses. -/
def sampleCertData : CertData :=
  ⟨"Alice Smith", "Math S4", "2025-06-01", "sub1", "stu1"⟩

/-- Claim C7 witness: two runs at timestamps 5 and 6 on the sample state. -/
theorem generateCertificate_twice_witness :
    ((5 : Nat) ≠ 6 ∧
     certPath "stu1" (certFileName "Math S4" 5) ∉ sampleCertState.storage ∧
     certPath "stu1" (certFileName "Math S4" 6) ∉ sampleCertState.storage) ∧
    (certPath "stu1" (certFileName "Math S4" 5) ≠
       certPath "stu1" (certFileName "Math S4" 6) ∧
     (generateCertificate
        (generateCertificate sampleCertState sampleCertData 5 true true).1
        sampleCertData 6 true true).1.storage =
       sampleCertState.storage ++ [certPath "stu1" (certFileName "Math S4" 5),
         certPath "stu1" (certFileName "Math S4" 6)] ∧
     (generateCertificate
        (generateCertificate sampleCertState sampleCertData 5 true true).1
        sampleCertData 6 true true).2 =
       some (publicUrl (certPath "stu1" (certFileName "Math S4" 6))) ∧
     publicUrl (certPath "stu1" (certFileName "Math S4" 5)) ≠
       publicUrl (certPath "stu1" (certFileName "Math S4" 6)) ∧
     (∀ r ∈ (generateCertificate
        (generateCertificate sampleCertState sampleCertData 5 true true).1
        sampleCertData 6 true true).1.enrollments,
       r.student_id = "stu1" → r.subject_id = "sub1" →
         r.certificate_url =
           some (publicUrl (certPath "stu1" (certFileName "Math S4" 6))))) :=
  ⟨⟨by decide, by simp [sampleCertState], by simp [sampleCertState]⟩,
   generateCertificate_twice sampleCertState sampleCertData 5 6 (by decide)
     (by simp [sampleCertState]) (by simp [sampleCertState])⟩

/-- Reassignment of the `completed` flag of every enrollment row (an
arbitrary change of the completion state the certificate precondition talks
about). -/
def mapCompleted (f : Bool → Bool) (st : CertState) : CertState :=
  { st with enrollments :=
      st.enrollments.map fun r => { r with completed := f r.completed } }

/-- The certificate-url update never looks at the `completed` flag, so it
commutes with any reassignment of that flag. -/
theorem setCertificateUrl_mapCompleted (rows : List EnrollmentRow)
    (f : Bool → Bool) (sid cid url : String) :
    setCertificateUrl
        (rows.map fun r => { r with completed := f r.completed }) sid cid url =
      (setCertificateUrl rows sid cid url).map
        fun r => { r with completed := f r.completed } := by
  simp only [setCertificateUrl, List.map_map]
  congr 1
  funext r
  by_cases h : r.student_id = sid ∧ r.subject_id = cid
  · simp [Function.comp, h]
  · simp [Function.comp, h]

/-- Claim C8: `generateCertificate` neither checks nor depends on the
enrollment's completed state — reassigning the `completed` flag of every
row in any way commutes with the operation and leaves the returned value
unchanged, so it renders, uploads and records identically whether or not
the enrollment is completed: the stated `completed=true` precondition is
not enforced in source. -/
theorem generateCertificate_ignores_completed (st : CertState) (d : CertData)
    (now : Nat) (uploadOk updateOk : Bool) (f : Bool → Bool) :
    (generateCertificate (mapCompleted f st) d now uploadOk updateOk).1 =
      mapCompleted f (generateCertificate st d now uploadOk updateOk).1 ∧
    (generateCertificate (mapCompleted f st) d now uploadOk updateOk).2 =
      (generateCertificate st d now uploadOk updateOk).2 := by
  have hcomm := setCertificateUrl_mapCompleted st.enrollments f d.studentId
    d.courseId (publicUrl (certPath d.studentId (certFileName d.courseName now)))
  by_cases hc : uploadOk = true ∧
      certPath d.studentId (certFileName d.courseName now) ∉ st.storage
  · by_cases hu : updateOk = true
    · constructor <;> simp [generateCertificate, mapCompleted, hc, hu, hcomm]
    · constructor <;> simp [generateCertificate, mapCompleted, hc, hu]
  · constructor <;> simp [generateCertificate, mapCompleted, hc]

/-- The upload step of `generateCertificate` succeeds exactly when the
backend accepts it and no object is already stored at the target path
(`upsert:false` forbids overwriting). -/
def uploadSucceeds (st : CertState) (d : CertData) (now : Nat)
    (uploadOk : Bool) : Prop :=
  uploadOk = true ∧
    certPath d.studentId (certFileName d.courseName now) ∉ st.storage

/-- Claim C10: `generateCertificate` never escapes with an exception (every
failure is caught): it returns the public URL exactly when the upload and
the database update both succeed, returns `none` on any failure, and in
every run — success or failure — exactly one local save of the rendered
PDF happens. -/
theorem generateCertificate_total (st : CertState) (d : CertData) (now : Nat)
    (uploadOk updateOk : Bool) :
    ((generateCertificate st d now uploadOk updateOk).2 =
        some (publicUrl (certPath d.studentId (certFileName d.courseName now))) ↔
      uploadSucceeds st d now uploadOk ∧ updateOk = true) ∧
    ((generateCertificate st d now uploadOk updateOk).2 = none ↔
      ¬(uploadSucceeds st d now uploadOk ∧ updateOk = true)) ∧
    (generateCertificate st d now uploadOk updateOk).1.localSaves =
      st.localSaves ++ [certFileName d.courseName now] := by
  by_cases hc : uploadOk = true ∧
      certPath d.studentId (certFileName d.courseName now) ∉ st.storage
  · by_cases hu : updateOk = true
    · constructor
      · simp [generateCertificate, uploadSucceeds, hc, hu]
      · constructor <;> simp [generateCertificate, uploadSucceeds, hc, hu]
    · constructor
      · simp [generateCertificate, uploadSucceeds, hc, hu]
      · constructor <;> simp [generateCertificate, uploadSucceeds, hc, hu]
  · constructor
    · simp [generateCertificate, uploadSucceeds, hc]
    · constructor <;> simp [generateCertificate, uploadSucceeds, hc]

/-- `handleDrop` from the course-enrollment page: a successful drop issues
`delete().eq("student_id", user.id).eq("subject_id", subjectId)` on
`student_courses` and toasts "Dropped course (your progress is saved!)"; a
failed delete leaves the table unchanged and toasts the failure. -/
def handleDrop (rows : List EnrollmentRow) (userId subjectId : String)
    (deleteOk : Bool) : List EnrollmentRow × String :=
  if deleteOk = true then
    (rows.filter fun r =>
        !(r.student_id == userId && r.subject_id == subjectId),
      "Dropped course (your progress is saved!)")
  else
    (rows, "Failed to drop course")

/-- Claim C9: a successful course drop deletes every enrollment row of the
(student, course) pair outright — its progress / completed / completed_at /
certificate_url values survive nowhere in the resulting table, no
replacement row is inserted (no soft delete), every other row is kept
unchanged — while the reported message still claims the progress is
saved. -/
theorem handleDrop_deletes_row (rows : List EnrollmentRow)
    (userId subjectId : String) :
    (∀ r ∈ rows, r.student_id = userId → r.subject_id = subjectId →
      r ∉ (handleDrop rows userId subjectId true).1) ∧
    (∀ r ∈ (handleDrop rows userId subjectId true).1,
      r ∈ rows ∧ ¬(r.student_id = userId ∧ r.subject_id = subjectId)) ∧
    (∀ r ∈ rows, ¬(r.student_id = userId ∧ r.subject_id = subjectId) →
      r ∈ (handleDrop rows userId subjectId true).1) ∧
    (handleDrop rows userId subjectId true).2 =
      "Dropped course (your progress is saved!)" := by
  have hres : (handleDrop rows userId subjectId true).1 =
      rows.filter
        (fun r => !(r.student_id == userId && r.subject_id == subjectId)) := by
    simp [handleDrop]
  refine ⟨?_, ?_, ?_, rfl⟩
  · intro r _ hs hc hmem
    rw [hres] at hmem
    have hpred := (List.mem_filter.mp hmem).2
    simp [hs, hc] at hpred
  · intro r hr
    rw [hres] at hr
    have h2 := List.mem_filter.mp hr
    refine ⟨h2.1, fun hand => ?_⟩
    have hpred := h2.2
    simp [hand.1, hand.2] at hpred
  · intro r hr hnot
    rw [hres]
    refine List.mem_filter.mpr ⟨hr, ?_⟩
    rcases not_and_or.mp hnot with h | h
    · simp [h]
    · simp [h]

/-- Claim C9 witness: dropping subject "sub1" removes student "stu1"'s
enrollment row (progress 80, with a certificate URL) from the table, keeps
the unrelated row, and reports the progress as saved. -/
theorem handleDrop_deletes_row_witness :
    (⟨"e1", "stu1", "sub1", 0, 80, true, some 7, some "u"⟩ : EnrollmentRow) ∉
      (handleDrop [⟨"e1", "stu1", "sub1", 0, 80, true, some 7, some "u"⟩,
          ⟨"e2", "stu1", "sub2", 0, 30, false, none, none⟩] "stu1" "sub1" true).1 ∧
    (⟨"e2", "stu1", "sub2", 0, 30, false, none, none⟩ : EnrollmentRow) ∈
      (handleDrop [⟨"e1", "stu1", "sub1", 0, 80, true, some 7, some "u"⟩,
          ⟨"e2", "stu1", "sub2", 0, 30, false, none, none⟩] "stu1" "sub1" true).1 ∧
    (handleDrop [⟨"e1", "stu1", "sub1", 0, 80, true, some 7, some "u"⟩,
        ⟨"e2", "stu1", "sub2", 0, 30, false, none, none⟩] "stu1" "sub1" true).2 =
      "Dropped course (your progress is saved!)" :=
  ⟨(handleDrop_deletes_row
      [⟨"e1", "stu1", "sub1", 0, 80, true, some 7, some "u"⟩,
       ⟨"e2", "stu1", "sub2", 0, 30, false, none, none⟩] "stu1" "sub1").1
      ⟨"e1", "stu1", "sub1", 0, 80, true, some 7, some "u"⟩ (by simp) rfl rfl,
   (handleDrop_deletes_row
      [⟨"e1", "stu1", "sub1", 0, 80, true, some 7, some "u"⟩,
       ⟨"e2", "stu1", "sub2", 0, 30, false, none, none⟩] "stu1" "sub1").2.2.1
      ⟨"e2", "stu1", "sub2", 0, 30, false, none, none⟩ (by simp) (by decide),
   (handleDrop_deletes_row
      [⟨"e1", "stu1", "sub1", 0, 80, true, some 7, some "u"⟩,
       ⟨"e2", "stu1", "sub2", 0, 30, false, none, none⟩] "stu1" "sub1").2.2.2⟩

end EShuri
